import Mathlib

/-!
Shallow embedding of the megaswap repository's Quote & Liquidity Discovery
engine (src/src/swap.py, src/src/quote.py, src/src/token_decimals.py,
src/src/provider.py).

Chain interaction is modelled by an oracle (`Chain`) supplying the replies of
the factory, pair, router and ERC-20 contracts; every chain call an embedded
function performs is recorded in a trace (`List ChainCall`) so that theorems
can speak about which calls were issued and with which address arguments.
Python exceptions are modelled by `Except PyErr`; Python float arithmetic is
abstracted by exact rationals (ℚ), which is faithful at the points the
theorems below use it (exact zeroes, exact decimal literals): in CPython,
float division by zero raises `ZeroDivisionError` rather than producing
Inf/NaN, which the `pydivQ`/`pydivNat` helpers reproduce.
-/

/-- Python exception kinds observable in the embedded code paths. -/
inductive PyErr where
  | valueError
  | web3Error
  | invalidAddress
  | typeError
  | zeroDivision
  | indexError
  deriving DecidableEq, Repr

/-- Address-valued data as it flows through the scripts: either a raw input
string (from env/config) or the result of applying web3's
`to_checksum_address` to some address value. -/
inductive AddrVal where
  | input (s : String)
  | checksummed (a : AddrVal)
  deriving DecidableEq, Repr

/-- Whether an address value has passed through `to_checksum_address`. -/
def AddrVal.isCk : AddrVal → Bool
  | .checksummed _ => true
  | .input _ => false

/-- Argument actually handed to `to_checksum_address` in the source: a string
in most call sites, but in quote.py's `get_reserves` the boolean returned by
`get_pair` is passed instead. -/
inductive CkArg where
  | str (s : String)
  | bool (b : Bool)

/-- Modelled external collaborator: web3's `to_checksum_address`. On a hex
address string it returns the canonical checksummed form; on a non-address
value such as a boolean it raises. -/
def toChecksumAddress : CkArg → Except PyErr AddrVal
  | .str s => .ok (.checksummed (.input s))
  | .bool _ => .error .invalidAddress

/-- Record of one chain call: the contract method name and every
address-typed value handed to the call (contract address first, then
address arguments, in source order). -/
structure ChainCall where
  method : String
  addrs : List AddrVal
  deriving DecidableEq, Repr

/-- Effect of an embedded script fragment: threads the trace of chain calls
and may stop with a Python exception (which preserves the trace so far). -/
def Eff (α : Type) : Type := List ChainCall → Except PyErr α × List ChainCall

def Eff.pure (a : α) : Eff α := fun log => (.ok a, log)

def Eff.bind (x : Eff α) (f : α → Eff β) : Eff β := fun log =>
  match x log with
  | (.ok a, log2) => f a log2
  | (.error e, log2) => (.error e, log2)

instance : Monad Eff where
  pure := Eff.pure
  bind := Eff.bind

/-- Lift a pure `Except` computation (no chain call is recorded). -/
def liftE (r : Except PyErr α) : Eff α := fun log => (r, log)

/-- Perform a chain call: record it in the trace and produce the oracle's
reply (which may be a failure). -/
def call (method : String) (addrs : List AddrVal) (reply : Except PyErr α) :
    Eff α :=
  fun log => (reply, log ++ [⟨method, addrs⟩])

/-- Python `try ... except ValueError` around an effectful block, as used at
the bottom of swap.py's `main`. -/
def catchValueError (x handler : Eff α) : Eff α := fun log =>
  match x log with
  | (.error .valueError, l) => handler l
  | r => r

/-- Python `try ... except Web3Exception` around an effectful block, as used
in token_decimals.py's `get_decimals`. -/
def catchWeb3 (x handler : Eff α) : Eff α := fun log =>
  match x log with
  | (.error .web3Error, l) => handler l
  | r => r

@[simp] theorem Eff.run_bind (x : Eff α) (f : α → Eff β) (log : List ChainCall) :
    (x >>= f) log =
      match x log with
      | (.ok a, l) => f a l
      | (.error e, l) => (.error e, l) := rfl

@[simp] theorem Eff.run_pure (a : α) (log : List ChainCall) :
    (Pure.pure a : Eff α) log = (.ok a, log) := rfl

@[simp] theorem Eff.run_purE (a : α) (log : List ChainCall) :
    (Eff.pure a : Eff α) log = (.ok a, log) := rfl

@[simp] theorem liftE_run (r : Except PyErr α) (log : List ChainCall) :
    (liftE r) log = (r, log) := rfl

@[simp] theorem call_run (method : String) (addrs : List AddrVal)
    (reply : Except PyErr α) (log : List ChainCall) :
    (call method addrs reply) log = (reply, log ++ [⟨method, addrs⟩]) := rfl

/-- State of a Uniswap-V2 pair contract as seen through its view functions. -/
structure PairView where
  name : String
  symbol : String
  decimals : Nat
  token0 : String
  token1 : String
  reserve0 : Nat
  reserve1 : Nat
  blockTimestampLast : Nat
  deriving DecidableEq, Repr

/-- Chain oracle: the decoded replies of every contract entry point the
scripts consume. Each field may also report a chain-call failure. -/
structure Chain where
  getBalance : AddrVal → Except PyErr Nat
  balanceOf : AddrVal → AddrVal → Except PyErr Nat
  decimalsOf : AddrVal → Except PyErr Nat
  getPair : AddrVal → AddrVal → Except PyErr String
  getAmountsOut : Nat → List AddrVal → Except PyErr (List Nat)
  pair : AddrVal → Except PyErr PairView

/-- Token descriptor as loaded from token.yaml. -/
structure Token where
  blockchain : String
  symbol : String
  address : String
  decimals : Nat
  deriving DecidableEq, Repr

/-- Embedding of swap.py `get_pair`: checksums the factory address and the
two token addresses, calls the factory's `getPair`, and classifies the reply
by comparing it against the literal string "0x". Note the source returns a
boolean, not the pair address. -/
def get_pair (chain : Chain) (factory token_a token_b : String) : Eff Bool := do
  let ck_factory ← liftE (toChecksumAddress (.str factory))
  let ck_a ← liftE (toChecksumAddress (.str token_a))
  let ck_b ← liftE (toChecksumAddress (.str token_b))
  let pair_address ← call "getPair" [ck_factory, ck_a, ck_b]
    (chain.getPair ck_a ck_b)
  pure (pair_address != "0x")

/-- Embedding of swap.py `print_balance`: checksums the address and reads its
ether balance. -/
def print_balance (chain : Chain) (address : String) : Eff Unit := do
  let ck_address ← liftE (toChecksumAddress (.str address))
  let _balance ← call "get_balance" [ck_address] (chain.getBalance ck_address)
  pure ()

/-- Embedding of swap.py `print_weth_balance`: the WETH contract address is
checksummed, but the holder `address` is passed to `balanceOf` exactly as
received (the source calls `balanceOf(address)`, not the checksummed form). -/
def print_weth_balance (chain : Chain) (address weth_address : String) :
    Eff Unit := do
  let ck_weth_address ← liftE (toChecksumAddress (.str weth_address))
  let _balance ← call "balanceOf" [ck_weth_address, .input address]
    (chain.balanceOf ck_weth_address (.input address))
  pure ()

/-- Python integer/float true division: raises `ZeroDivisionError` on a zero
divisor, otherwise yields the exact quotient (float abstracted by ℚ). -/
def pydivNat (a b : Nat) : Except PyErr ℚ :=
  if b = 0 then .error .zeroDivision else .ok ((a : ℚ) / (b : ℚ))

/-- Python float/float true division over the rational abstraction. -/
def pydivQ (a b : ℚ) : Except PyErr ℚ :=
  if b = 0 then .error .zeroDivision else .ok (a / b)

/-- Embedding of swap.py `print_amount_out`: checksums the router address and
both path tokens, calls the router's `getAmountsOut` with the two-element
path, takes the last element of the reply (`amount_out[-1]`, raising
IndexError on an empty list as Python would) and divides it by the
caller-supplied `out_base`. The returned rational is the logged output
amount. -/
def print_amount_out (chain : Chain) (router : String) (amount_in : Nat)
    (token_in token_out : String) (out_base : Nat) : Eff ℚ := do
  let ck_router ← liftE (toChecksumAddress (.str router))
  let ck_token_in ← liftE (toChecksumAddress (.str token_in))
  let ck_token_out ← liftE (toChecksumAddress (.str token_out))
  let amount_out ← call "getAmountsOut" [ck_router, ck_token_in, ck_token_out]
    (chain.getAmountsOut amount_in [ck_token_in, ck_token_out])
  match amount_out.getLast? with
  | none => liftE (.error .indexError)
  | some lastAmount => liftE (pydivNat lastAmount out_base)

/-- Embedding of quote.py `get_reserves` lines 33-44: given the (checksummed)
pair address, reads name/symbol/decimals (logged only), token0/token1 (logged
only — they are never used to reorder), then `getReserves`, whose raw
three-tuple (reserve0, reserve1, blockTimestampLast) is returned unchanged. -/
def read_pair_reserves (chain : Chain) (ck_pair : AddrVal) :
    Eff (Nat × Nat × Nat) := do
  let _name ← call "name" [ck_pair] ((chain.pair ck_pair).map (·.name))
  let _symbol ← call "symbol" [ck_pair] ((chain.pair ck_pair).map (·.symbol))
  let _decimals ← call "decimals" [ck_pair]
    ((chain.pair ck_pair).map (·.decimals))
  let _token0 ← call "token0" [ck_pair] ((chain.pair ck_pair).map (·.token0))
  let _token1 ← call "token1" [ck_pair] ((chain.pair ck_pair).map (·.token1))
  let reserves ← call "getReserves" [ck_pair]
    ((chain.pair ck_pair).map fun v =>
      (v.reserve0, v.reserve1, v.blockTimestampLast))
  pure reserves

/-- Embedding of quote.py `get_reserves`: `pair_address` is the boolean
returned by swap.py's `get_pair`; a falsy value yields `none`, and a truthy
value is handed to `to_checksum_address` (which raises on a boolean) before
the pair contract could be read. -/
def get_reserves (chain : Chain) (factory token_a token_b : String) :
    Eff (Option (Nat × Nat × Nat)) := do
  let pair_address ← get_pair chain factory token_a token_b
  if !pair_address then
    pure none
  else do
    let ck_pair_address ← liftE (toChecksumAddress (.bool pair_address))
    let reserves ← read_pair_reserves chain ck_pair_address
    pure (some reserves)

/-- Python subscript `reserves[0]` where `reserves` is `None` or a 3-tuple:
`None` is not subscriptable and raises TypeError. -/
def subscript0 : Option (Nat × Nat × Nat) → Except PyErr Nat
  | none => .error .typeError
  | some (a, _, _) => .ok a

/-- Python subscript `reserves[1]` on an optional 3-tuple. -/
def subscript1 : Option (Nat × Nat × Nat) → Except PyErr Nat
  | none => .error .typeError
  | some (_, b, _) => .ok b

/-- Embedding of the price computation in quote.py `main` lines 78-83:
`reserve_eth = reserves[0] / 10**base_decimals`,
`reserve_out_token = reserves[1] / 10**out_decimals`,
`price = reserve_out_token / reserve_eth`. Python raises ZeroDivisionError
on a zero divisor instead of producing Inf/NaN, and the rational codomain
has no Inf/NaN values at all. -/
def price_block (r0 r1 : Nat) (base_decimals out_decimals : Nat) :
    Except PyErr ℚ := do
  let reserve_eth ← pydivNat r0 (10 ^ base_decimals)
  let reserve_out_token ← pydivNat r1 (10 ^ out_decimals)
  pydivQ reserve_out_token reserve_eth

/-- Decimal digit character for n below 10 (clamped at 9). -/
def digit (n : Nat) : Char :=
  match n with
  | 0 => '0'
  | 1 => '1'
  | 2 => '2'
  | 3 => '3'
  | 4 => '4'
  | 5 => '5'
  | 6 => '6'
  | 7 => '7'
  | 8 => '8'
  | _ => '9'

/-- The low four decimal digits of n, zero-padded to width four. -/
def pad4 (n : Nat) : String :=
  String.mk [digit (n / 1000 % 10), digit (n / 100 % 10),
    digit (n / 10 % 10), digit (n % 10)]

/-- Decimal digit characters of n, most significant first (fuel-driven; a
fuel of n is always sufficient since n has at most n digits). -/
def decDigits : Nat → Nat → List Char
  | 0, _ => []
  | fuel + 1, n =>
    if n < 10 then [digit n]
    else decDigits fuel (n / 10) ++ [digit (n % 10)]

/-- Exponent digits, zero-padded to at least width two as Python does. -/
def pad2 (n : Nat) : String :=
  if n < 10 then String.mk ['0', digit n] else String.mk (decDigits n n)

/-- Round a rational to the nearest integer, ties to even — the rounding
CPython's float formatting applies. -/
def roundHalfEven (q : ℚ) : ℤ :=
  let fl := ⌊q⌋
  let fr := q - fl
  if fr < 1 / 2 then fl
  else if 1 / 2 < fr then fl + 1
  else if fl % 2 = 0 then fl else fl + 1

/-- Fuel-driven floor of log base 10 on naturals (0 for n below 10). -/
def log10fuel : Nat → Nat → Nat
  | 0, _ => 0
  | fuel + 1, n => if n < 10 then 0 else log10fuel fuel (n / 10) + 1

/-- Floor of log base 10 of a natural number (100 digits of fuel is enough
for every quantity the scripts handle). -/
def natLog10 (n : Nat) : Nat := log10fuel 100 n

/-- Smallest k with 10^k at least n, for positive n. -/
def ceilLog10Nat (n : Nat) : Nat :=
  let l := natLog10 n
  if 10 ^ l = n then l else l + 1

/-- Floor of log base 10 of a positive rational. -/
def qlog10 (q : ℚ) : ℤ :=
  if 1 ≤ q then (natLog10 ⌊q⌋.toNat : ℤ)
  else -(ceilLog10Nat ⌈1 / q⌉.toNat : ℤ)

/-- Integer power of ten over the rationals. -/
def pow10 : ℤ → ℚ
  | .ofNat n => (10 : ℚ) ^ n
  | .negSucc n => 1 / (10 : ℚ) ^ (n + 1)

/-- Modelled external: CPython's fixed-point format `f"{x:.4f}"` for a
nonnegative value — the integer part followed by exactly four fractional
digits, rounded half-to-even. -/
def pyFixed4 (q : ℚ) : String :=
  let n := (roundHalfEven (q * 10000)).toNat
  Nat.repr (n / 10000) ++ "." ++ pad4 (n % 10000)

/-- Mantissa digits (as a five-digit natural) and decimal exponent of a
positive rational, rounded half-to-even at four fractional mantissa digits,
with the carry into the next power of ten applied. -/
def sciParts (q : ℚ) : ℕ × ℤ :=
  let e := qlog10 q
  let m := q * pow10 (-e)
  let n0 := (roundHalfEven (m * 10000)).toNat
  if 100000 ≤ n0 then (n0 / 10, e + 1) else (n0, e)

/-- Modelled external: CPython's scientific format `f"{x:.4e}"` for a
nonnegative value — a one-digit integer mantissa part, four fractional
mantissa digits, and a sign-prefixed exponent of at least two digits. -/
def pySci4 (q : ℚ) : String :=
  if q ≤ 0 then "0.0000e+00"
  else
    let p := sciParts q
    String.mk [digit (p.1 / 10000)] ++ "." ++ pad4 (p.1 % 10000) ++ "e" ++
      (if p.2 < 0 then "-" else "+") ++ pad2 p.2.natAbs

/-- Embedding of the display rule in quote.py `main` line 84:
`f"{price:.4f}" if price >= 0.0001 else f"{price:.4e}"`. -/
def formatPrice (price : ℚ) : String :=
  if (0.0001 : ℚ) ≤ price then pyFixed4 price else pySci4 price

/-- Embedding of quote.py `main` after the environment asserts: fetches the
reserves (the `if reserves:` check only selects a log line and has no other
control effect in the source), then unconditionally subscripts the result,
normalizes both reserves and divides, and formats the price. -/
def quote_main (chain : Chain) (factory weth token_out : String)
    (weth_decimals token_out_decimals : Nat) : Eff String := do
  let reserves ← get_reserves chain factory weth token_out
  let r0 ← liftE (subscript0 reserves)
  let r1 ← liftE (subscript1 reserves)
  let price ← liftE (price_block r0 r1 weth_decimals token_out_decimals)
  pure (formatPrice price)

/-- Embedding of token_decimals.py `get_decimals`: checksums the token
address and reads `decimals()`; a Web3Exception from the chain call is
caught and turned into the return value 0. -/
def get_decimals (chain : Chain) (token_address : String) : Eff Nat :=
  catchWeb3
    (do
      let ck_token_address ← liftE (toChecksumAddress (.str token_address))
      let decimals ← call "decimals" [ck_token_address]
        (chain.decimalsOf ck_token_address)
      pure decimals)
    (Eff.pure 0)

/-- What the verification loop in token_decimals.py `main` reports for one
token, given the value `get_decimals` returned and the expected decimals. -/
inductive DecCheck where
  | mismatchReported
  | correctReported
  | silent
  deriving DecidableEq, Repr

/-- Embedding of the classification in token_decimals.py `main` lines 66-81:
`if actual_decimals not in (0, decimals)` reports a mismatch,
`elif actual_decimals == decimals` reports success, otherwise nothing is
reported. -/
def check_token (actual expected : Nat) : DecCheck :=
  if ¬(actual = 0 ∨ actual = expected) then .mismatchReported
  else if actual = expected then .correctReported
  else .silent

/-- Embedding of the token loop in swap.py `main`: for each token on the
MegaETH chain other than ETH itself, resolve the pair against WETH and, if
one is reported, print the quoted amount out for 1 ETH; the (symbol,
is_pair) outcomes are accumulated in input order. No exception handling
occurs inside the loop. -/
def scan_tokens (chain : Chain) (factory router weth : String) :
    List Token → Eff (List (String × Bool))
  | [] => Eff.pure []
  | t :: rest => do
    if t.blockchain == "MegaETH" && t.symbol != "ETH" then
      let is_pair ← get_pair chain factory weth t.address
      if is_pair then
        let _ ← print_amount_out chain router (10 ^ 18) weth t.address
          (10 ^ t.decimals)
        let tail ← scan_tokens chain factory router weth rest
        pure ((t.symbol, is_pair) :: tail)
      else
        let tail ← scan_tokens chain factory router weth rest
        pure ((t.symbol, is_pair) :: tail)
    else
      scan_tokens chain factory router weth rest

/-- Embedding of swap.py `main` lines 187-216: prints the ether and WETH
balances, then runs the token loop; the whole block sits inside a single
`try ... except ValueError`, so only ValueError is caught, and only outside
the loop. -/
def swap_main (chain : Chain) (factory router weth public_key : String)
    (tokens : List Token) : Eff (Option (List (String × Bool))) :=
  catchValueError
    (do
      print_balance chain public_key
      print_weth_balance chain public_key weth
      let outcomes ← scan_tokens chain factory router weth tokens
      pure (some outcomes))
    (Eff.pure none)

/-- Baseline chain oracle for concrete scenarios: balances read 0, tokens
report 0 decimals, the factory reports "0x", the router returns an empty
list and pair views are unavailable. Scenario chains override fields. -/
def baseChain : Chain where
  getBalance := fun _ => .ok 0
  balanceOf := fun _ _ => .ok 0
  decimalsOf := fun _ => .ok 0
  getPair := fun _ _ => .ok "0x"
  getAmountsOut := fun _ _ => .ok []
  pair := fun _ => .error .web3Error

/-- The chain's canonical zero address, which a Uniswap-V2 factory returns
when no pair exists. -/
def zeroAddress : String := "0x0000000000000000000000000000000000000000"

/-- Chain whose factory reports the canonical zero address: no pair exists. -/
def chainZeroReply : Chain := { baseChain with getPair := fun _ _ => .ok zeroAddress }

/-- Chain whose factory reply is the literal "0x" string that swap.py's
`get_pair` treats as the no-pair sentinel. -/
def chainNotFound : Chain := { baseChain with getPair := fun _ _ => .ok "0x" }

/-- A pool holding 5 units of the base token and 7 of the quote token, with
the contract's token0 equal to the requested base token. -/
def poolBaseFirst : PairView where
  name := "Pool"
  symbol := "LP"
  decimals := 18
  token0 := "0xBASE"
  token1 := "0xQUOTE"
  reserve0 := 5
  reserve1 := 7
  blockTimestampLast := 0

/-- The same pool with the opposite storage orientation: token0 is the
requested quote token, so the contract stores the reserves as (7, 5). -/
def poolQuoteFirst : PairView where
  name := "Pool"
  symbol := "LP"
  decimals := 18
  token0 := "0xQUOTE"
  token1 := "0xBASE"
  reserve0 := 7
  reserve1 := 5
  blockTimestampLast := 0

/-- Chain serving a given pair view at every pair address. -/
def chainWithPool (v : PairView) : Chain := { baseChain with pair := fun _ => .ok v }

/-- First token of the failure-isolation scenario: its `getPair` chain call
fails with an RPC error. -/
def tokenFailing : Token where
  blockchain := "MegaETH"
  symbol := "AAA"
  address := "0xT1"
  decimals := 18

/-- Second token of the failure-isolation scenario: its pair resolves fine. -/
def tokenHealthy : Token where
  blockchain := "MegaETH"
  symbol := "BBB"
  address := "0xT2"
  decimals := 18

/-- Chain for the failure-isolation scenario: the factory call reverts for
`tokenFailing`'s address and succeeds for every other token. -/
def chainScanFail : Chain :=
  { baseChain with
    getPair := fun _ b =>
      if b == .checksummed (.input "0xT1") then .error .web3Error
      else .ok "0xPAIRADDRESS"
    getAmountsOut := fun _ _ => .ok [10 ^ 18, 42] }

/-- Chain whose router replies [5, 42] to every `getAmountsOut` query. -/
def chainRouter : Chain := { baseChain with getAmountsOut := fun _ _ => .ok [5, 42] }

/-- Chain whose ERC-20 `decimals()` call fails with a Web3 error. -/
def chainDecimalsFail : Chain := { baseChain with decimalsOf := fun _ => .error .web3Error }

/-- Chain whose ERC-20 `decimals()` call genuinely returns 0. -/
def chainDecimalsZero : Chain := baseChain

/-- Whether an `Except` result carries a present (`some`) success value. -/
def isOkSome : Except PyErr (Option α) → Bool
  | .ok (some _) => true
  | _ => false

/-- Claim C1: pair resolution is claimed to classify the factory reply
against the chain's canonical zero address, with the zero address mapping to
NotFound. The code instead compares against the literal string "0x": when
the factory returns the canonical zero address, `get_pair` reports that a
pair exists (`true`, i.e. Found), contradicting the claim. -/
theorem c1_get_pair_zero_address_reply_reports_found :
    ((get_pair chainZeroReply "0xFAC" "0xA" "0xB") []).1 = .ok true
    ∧ (zeroAddress == "0x") = false := by
  exact ⟨rfl, rfl⟩

/-- Claim C2: the reserve reader is claimed to reorder the pair contract's
two reserve values to the caller's requested (base, quote) ordering, giving
identical numeric results under both storage orientations. The code reads
token0/token1 but only logs them and returns the raw `getReserves()` tuple
unchanged: the same pool (base reserve 5, quote reserve 7) yields (5, 7)
when token0 is the base token but (7, 5) when token0 is the quote token. -/
theorem c2_read_pair_reserves_ignores_orientation :
    ((read_pair_reserves (chainWithPool poolBaseFirst)
        (.checksummed (.input "0xPAIR"))) []).1 = .ok (5, 7, 0)
    ∧ ((read_pair_reserves (chainWithPool poolQuoteFirst)
        (.checksummed (.input "0xPAIR"))) []).1 = .ok (7, 5, 0)
    ∧ ((((5, 7, 0) : ℕ × ℕ × ℕ) == ((7, 5, 0) : ℕ × ℕ × ℕ)) = false) := by
  exact ⟨rfl, rfl, rfl⟩

/-- Claim C3: a chain-call failure during one token's pair resolution is
claimed to be caught and recorded, never aborting the scan. In the code the
RPC error raises out of `get_pair`, is not caught inside the token loop
(only ValueError is caught, and only outside the loop), and the whole run
fails: the second token is never processed — no chain call ever mentions
its address. -/
theorem c3_one_token_failure_aborts_scan :
    (swap_main chainScanFail "0xFAC" "0xROUTER" "0xWETH" "0xPUB"
        [tokenFailing, tokenHealthy]) [] =
      (.error .web3Error,
       [⟨"get_balance", [.checksummed (.input "0xPUB")]⟩,
        ⟨"balanceOf", [.checksummed (.input "0xWETH"), .input "0xPUB"]⟩,
        ⟨"getPair", [.checksummed (.input "0xFAC"),
          .checksummed (.input "0xWETH"), .checksummed (.input "0xT1")]⟩])
    ∧ (((swap_main chainScanFail "0xFAC" "0xROUTER" "0xWETH" "0xPUB"
        [tokenFailing, tokenHealthy]) []).2.all
        fun c => c.addrs.all fun a => a != .checksummed (.input "0xT2")) = true := by
  exact ⟨rfl, rfl⟩

/-- Claim C4: for every reserves value whose base reserve is 0, the price
computation fails with a division-by-zero error. The embedded computation
(quote.py main lines 78-83) indeed yields `ZeroDivisionError` whenever
`reserves[0] = 0`, for every quote reserve and every pair of decimals, and
its rational codomain has no Infinity or NaN values to return. -/
theorem c4_zero_base_reserve_division_error
    (r1 base_decimals out_decimals : Nat) :
    price_block 0 r1 base_decimals out_decimals = .error .zeroDivision := by
  have h1 : (10 : ℕ) ^ base_decimals ≠ 0 := pow_ne_zero _ (by norm_num)
  have h2 : (10 : ℕ) ^ out_decimals ≠ 0 := pow_ne_zero _ (by norm_num)
  simp [price_block, pydivNat, pydivQ, h1, h2]
  rfl

/-- Claim C5: the quote computation calls the router's `getAmountsOut` with
exactly the two-element path [tokenIn, tokenOut], takes the last element of
the reply, and divides it by 10^(caller-supplied output-token decimals).
Confirmed: for every router reply with a last element, `print_amount_out`
records exactly one `getAmountsOut` call whose address arguments are the
router followed by the two checksummed path tokens, and returns the last
reply element divided by the supplied power-of-ten base. -/
theorem c5_single_hop_last_element_normalized (chain : Chain)
    (router token_in token_out : String) (amount_in d : Nat)
    (ys : List Nat) (y : Nat) (log : List ChainCall)
    (hreply : chain.getAmountsOut amount_in
      [.checksummed (.input token_in), .checksummed (.input token_out)] = .ok ys)
    (hlast : ys.getLast? = some y) :
    (print_amount_out chain router amount_in token_in token_out (10 ^ d)) log =
      (.ok ((y : ℚ) / ((10 ^ d : ℕ) : ℚ)),
       log ++ [⟨"getAmountsOut",
         [.checksummed (.input router), .checksummed (.input token_in),
          .checksummed (.input token_out)]⟩]) := by
  have hb : (10 : ℕ) ^ d ≠ 0 := pow_ne_zero _ (by norm_num)
  simp [print_amount_out, toChecksumAddress, hreply, hlast, pydivNat, hb]

/-- Witness for C5 at a concrete chain whose router replies [5, 42]. -/
theorem c5_witness :
    (print_amount_out chainRouter "0xR" 7 "0xI" "0xO" (10 ^ 2)) [] =
      (.ok ((42 : ℚ) / ((10 ^ 2 : ℕ) : ℚ)),
       [⟨"getAmountsOut", [.checksummed (.input "0xR"),
         .checksummed (.input "0xI"), .checksummed (.input "0xO")]⟩]) :=
  c5_single_hop_last_element_normalized chainRouter "0xR" "0xI" "0xO" 7 2
    [5, 42] 42 [] rfl rfl

/-- Claim C6: a reported "no pair" outcome is claimed to stay a recorded
non-error datum and never surface as a raised fault in the quoting flow.
In quote.py `main`, when pair resolution reports no pair, `get_reserves`
does return `None` as data, but `main` then unconditionally subscripts the
`None` value (its `if reserves:` check only chooses a log line), so the
quoting flow raises TypeError. -/
theorem c6_pair_not_found_raises_type_error :
    (quote_main chainNotFound "0xFAC" "0xWETH" "0xTOK" 18 18) [] =
      (.error .typeError,
       [⟨"getPair", [.checksummed (.input "0xFAC"),
         .checksummed (.input "0xWETH"), .checksummed (.input "0xTOK")]⟩]) := by
  exact rfl

/-- Claim C7: every address passed as an argument to a chain contract call
is claimed to be checksummed first. In `print_weth_balance` the WETH
contract address is checksummed but the holder address is handed to
`balanceOf` exactly as received, so the recorded trace contains a
non-checksummed address argument. -/
theorem c7_weth_balance_holder_address_not_checksummed :
    ((print_weth_balance baseChain "0xabc" "0xweth") []).2 =
      [⟨"balanceOf", [.checksummed (.input "0xweth"), .input "0xabc"]⟩]
    ∧ (((print_weth_balance baseChain "0xabc" "0xweth") []).2.all
        fun c => c.addrs.all AddrVal.isCk) = false := by
  exact ⟨rfl, rfl⟩

/-- Helper: `decDigits` with positive fuel always emits at least one digit
character (either branch of its body is nonempty). -/
theorem one_le_decDigits_length (fuel n : Nat) (h : 1 ≤ fuel) :
    1 ≤ (decDigits fuel n).length := by
  cases fuel with
  | zero => omega
  | succ f =>
    rw [decDigits]
    by_cases hn : n < 10
    · rw [if_pos hn]
      exact le_rfl
    · rw [if_neg hn]
      simp

/-- Helper: Python pads the exponent to at least two digits, so `pad2`
always produces a string of length at least two. -/
theorem two_le_pad2_length (n : Nat) : 2 ≤ (pad2 n).length := by
  rw [pad2]
  by_cases h : n < 10
  · rw [if_pos h]
    exact le_rfl
  · rw [if_neg h]
    obtain ⟨k, rfl⟩ : ∃ k, n = k + 10 := ⟨n - 10, by omega⟩
    show 2 ≤ (decDigits (k + 9 + 1) (k + 10)).length
    rw [decDigits, if_neg (by omega)]
    have h1 : 1 ≤ (decDigits (k + 9) ((k + 10) / 10)).length :=
      one_le_decDigits_length (k + 9) ((k + 10) / 10) (by omega)
    simp only [List.length_append, List.length_cons, List.length_nil]
    omega

/-- Helper: for every rational, `pySci4` produces a string of the shape
one mantissa digit, a point, exactly four mantissa digits, "e", a sign,
and an at-least-two-digit exponent. -/
theorem pySci4_shape (q : ℚ) :
    ∃ (d mant ex : ℕ) (sign : String),
      mant < 10000 ∧ (sign = "-" ∨ sign = "+") ∧
      pySci4 q =
        String.mk [digit d] ++ "." ++ pad4 mant ++ "e" ++ sign ++ pad2 ex ∧
      (pad4 mant).length = 4 ∧ 2 ≤ (pad2 ex).length := by
  by_cases hq : q ≤ 0
  · refine ⟨0, 0, 0, "+", by norm_num, Or.inr rfl, ?_, rfl, two_le_pad2_length 0⟩
    rw [pySci4, if_pos hq]
    rfl
  · refine ⟨(sciParts q).1 / 10000, (sciParts q).1 % 10000, (sciParts q).2.natAbs,
      if (sciParts q).2 < 0 then "-" else "+",
      Nat.mod_lt _ (by norm_num), ?_, ?_, rfl, two_le_pad2_length _⟩
    · by_cases he : (sciParts q).2 < 0
      · exact Or.inl (if_pos he)
      · exact Or.inr (if_neg he)
    · rw [pySci4, if_neg hq]

/-- Claim C8 (amended): every price at least 0.0001 is rendered with
exactly four decimal places; every smaller price is rendered in scientific
notation with one integer mantissa digit, a mantissa carrying four digits
after the decimal point, and a sign-prefixed exponent of at least two
digits, so that 0.00000037 renders as "3.7000e-07" (not "3.7000e-7");
2500 renders as "2500.0000". -/
theorem c8_display_threshold_rule :
    (∀ price : ℚ, (0.0001 : ℚ) ≤ price →
      ∃ a b : ℕ, b < 10000 ∧
        formatPrice price = Nat.repr a ++ "." ++ pad4 b ∧ (pad4 b).length = 4)
    ∧ (∀ price : ℚ, price < (0.0001 : ℚ) →
      ∃ (d mant ex : ℕ) (sign : String),
        mant < 10000 ∧ (sign = "-" ∨ sign = "+") ∧
        formatPrice price =
          String.mk [digit d] ++ "." ++ pad4 mant ++ "e" ++ sign ++ pad2 ex ∧
        (pad4 mant).length = 4 ∧ 2 ≤ (pad2 ex).length)
    ∧ formatPrice (0.00000037 : ℚ) = "3.7000e-07"
    ∧ formatPrice (2500 : ℚ) = "2500.0000" := by
  refine ⟨fun price hp => ?_, fun price hp => ?_,
    by with_unfolding_all rfl, by with_unfolding_all rfl⟩
  · refine ⟨(roundHalfEven (price * 10000)).toNat / 10000,
      (roundHalfEven (price * 10000)).toNat % 10000,
      Nat.mod_lt _ (by norm_num), ?_, rfl⟩
    rw [formatPrice, if_pos hp]
    rfl
  · rw [formatPrice, if_neg (not_le.mpr hp)]
    exact pySci4_shape price

/-- Witness for C8: the fixed-point clause at the concrete price 2500 and
the scientific clause at the concrete price 0.00000037. -/
theorem c8_witness :
    (∃ a b : ℕ, b < 10000 ∧
      formatPrice (2500 : ℚ) = Nat.repr a ++ "." ++ pad4 b
      ∧ (pad4 b).length = 4)
    ∧ (∃ (d mant ex : ℕ) (sign : String),
      mant < 10000 ∧ (sign = "-" ∨ sign = "+") ∧
      formatPrice (0.00000037 : ℚ) =
        String.mk [digit d] ++ "." ++ pad4 mant ++ "e" ++ sign ++ pad2 ex ∧
      (pad4 mant).length = 4 ∧ 2 ≤ (pad2 ex).length) :=
  ⟨c8_display_threshold_rule.1 2500 (by norm_num),
   c8_display_threshold_rule.2.1 0.00000037 (by norm_num)⟩

/-- Counterexample for C8 as stated: the price 0.00000037 does not render
as the claimed string "3.7000e-7" (the code produces "3.7000e-07"). -/
theorem c8_counterexample :
    (formatPrice (0.00000037 : ℚ) == "3.7000e-7") = false := by
  with_unfolding_all rfl

/-- Claim C9: quote.py's `get_reserves` never returns a reserves value,
because swap.py's `get_pair` returns a boolean rather than a pair address:
a falsy result yields `None`, and a truthy boolean is rejected by
`to_checksum_address` before any reserve read. For every chain oracle and
every pair of tokens, the result is never a present reserves tuple and the
trace never contains a `getReserves` call. -/
theorem c9_get_reserves_never_returns_reserves (chain : Chain)
    (factory token_a token_b : String) :
    isOkSome (((get_reserves chain factory token_a token_b) []).1) = false
    ∧ ((((get_reserves chain factory token_a token_b) []).2).all
        fun c => c.method != "getReserves") = true := by
  cases hreply : chain.getPair (.checksummed (.input token_a))
      (.checksummed (.input token_b)) with
  | error e =>
    simp [get_reserves, get_pair, toChecksumAddress, hreply, isOkSome]
  | ok s =>
    cases hbe : s != "0x" with
    | false =>
      simp [get_reserves, get_pair, toChecksumAddress, hreply, hbe, isOkSome]
    | true =>
      simp [get_reserves, get_pair, toChecksumAddress, hreply, hbe, isOkSome]

/-- Claim C10: when the chain call reading a token's decimals fails with a
Web3 exception, `get_decimals` returns 0 rather than signalling the failure;
the verification loop never reports a mismatch for the value 0, and the
result is identical to that for a token genuinely declaring 0 decimals. -/
theorem c10_failed_decimals_read_reads_as_zero (chain chain2 : Chain)
    (token_address : String) (expected : Nat) (log : List ChainCall)
    (hfail : chain.decimalsOf (.checksummed (.input token_address)) =
      .error .web3Error)
    (hzero : chain2.decimalsOf (.checksummed (.input token_address)) = .ok 0) :
    ((get_decimals chain token_address) log).1 = .ok 0
    ∧ ((get_decimals chain token_address) log).1 =
        ((get_decimals chain2 token_address) log).1
    ∧ check_token 0 expected =
        (if 0 = expected then DecCheck.correctReported else DecCheck.silent) := by
  refine ⟨?_, ?_, ?_⟩
  · simp [get_decimals, catchWeb3, toChecksumAddress, hfail]
  · simp [get_decimals, catchWeb3, toChecksumAddress, hfail, hzero]
  · simp [check_token]

/-- Witness for C10 at concrete chains: one whose decimals read fails and
one whose decimals read returns 0. -/
theorem c10_witness :
    ((get_decimals chainDecimalsFail "0xT") []).1 = .ok 0
    ∧ ((get_decimals chainDecimalsFail "0xT") []).1 =
        ((get_decimals chainDecimalsZero "0xT") []).1
    ∧ check_token 0 18 =
        (if 0 = 18 then DecCheck.correctReported else DecCheck.silent) :=
  c10_failed_decimals_read_reads_as_zero chainDecimalsFail chainDecimalsZero
    "0xT" 18 [] rfl rfl
